import Mathlib

/-! Verification of the cuBLAS custom-call dispatch layer (`jaxlib/cublas.cc`)

Shallow embedding of the device-call marshaling core: the per-stream handle
pool (`BlasHandlePool::Borrow`), the descriptor codec
(`PackDescriptor`/`UnpackDescriptor` instantiated at `TrsmBatchedDescriptor`
and `GetrfBatchedDescriptor`), the batch-pointer builder
(`MakeBatchPointers`), and the two operation dispatchers
(`TrsmBatched_`/`TrsmBatched`, `GetrfBatched_`/`GetrfBatched`).

Embedding conventions:
* C machine integers (`int`, `size_t`) are embedded as `Nat`.  Every quantity
  the verified properties touch is nonnegative and within the 32-bit range
  (the spec's validity invariant demands batch counts and shapes `≥ 1`, and
  signed overflow in the source would be undefined behaviour), so the
  embedding is value-preserving on that domain.  Where a 32-bit field is
  stored into bytes, truncation modulo 2^32 is explicit.
* Device and host addresses (`void*`, `cudaStream_t`) are embedded as `Nat`;
  the null stream is address `0`.
* Calls into CUDA / cuBLAS are external: their success or failure is an
  environment parameter (`CudaEnv`), and their device-visible effects are
  recorded as an explicit trace of `Event`s in stream issue order.
-/

/-! Numeric type tags and cuBLAS enum constants

`enum class Type` from `cublas.cc` and the cuBLAS mode enums.  They are
`int`-backed in C, and descriptor decoding is an unvalidated `bit_cast`, so
the embedding keeps them as `Nat` values with named constants. -/

def F32 : Nat := 0
def F64 : Nat := 1
def C64 : Nat := 2
def C128 : Nat := 3

def CUBLAS_SIDE_LEFT : Nat := 0
def CUBLAS_SIDE_RIGHT : Nat := 1
def CUBLAS_FILL_MODE_LOWER : Nat := 0
def CUBLAS_FILL_MODE_UPPER : Nat := 1
def CUBLAS_OP_N : Nat := 0
def CUBLAS_OP_T : Nat := 1
def CUBLAS_OP_C : Nat := 2
def CUBLAS_DIAG_NON_UNIT : Nat := 0
def CUBLAS_DIAG_UNIT : Nat := 1

/-- Function `SizeOfType` from `cublas.cc`: element size in bytes for each type tag.
The C `switch` covers all four enum values; other tag values are unreachable
for descriptors produced by the builders, and map to `0` here. -/
def SizeOfType (t : Nat) : Nat :=
  if t = F32 then 4
  else if t = F64 then 8
  else if t = C64 then 8
  else if t = C128 then 16
  else 0

/-- Constant: `sizeof(void*)` on the 64-bit platforms jaxlib targets. -/
def ptrSize : Nat := 8

/-- Function `DtypeToType` from `cublas.cc`: maps a NumPy dtype, given by its kind
character and item size, to a type tag; throws `std::invalid_argument`
(embedded as `Except.error`) for unsupported dtypes. -/
def DtypeToType (kind : Char) (itemsize : Nat) : Except String Nat :=
  if kind = 'f' ∧ itemsize = 4 then .ok F32
  else if kind = 'f' ∧ itemsize = 8 then .ok F64
  else if kind = 'c' ∧ itemsize = 8 then .ok C64
  else if kind = 'c' ∧ itemsize = 16 then .ok C128
  else .error "Unsupported dtype"

/-! Descriptors and their byte codec

`TrsmBatchedDescriptor` and `GetrfBatchedDescriptor` are fixed-layout C
structs of 32-bit fields (no padding: every field is 4-byte aligned).
`PackDescriptor` serializes the struct's memory image to a byte string;
`UnpackDescriptor` checks that the byte length equals `sizeof(T)` and
otherwise reinterprets the bytes as the struct with no further validation.
Their implementation lives in `jaxlib/kernel_helpers.h`, which is not part
of this repository snapshot; the codec below is modelled from the spec
(§4.2): fixed layout, length check as the sole validation. -/

structure TrsmBatchedDescriptor where
  type : Nat
  batch : Nat
  m : Nat
  n : Nat
  side : Nat
  uplo : Nat
  trans : Nat
  diag : Nat
deriving DecidableEq, Repr

structure GetrfBatchedDescriptor where
  type : Nat
  batch : Nat
  n : Nat
deriving DecidableEq, Repr

/-- Little-endian byte image of one 32-bit field. -/
def natToBytes4 (v : Nat) : List Nat :=
  [v % 256, v / 256 % 256, v / 65536 % 256, v / 16777216 % 256]

/-- Reads the 32-bit field stored little-endian at byte offset `off`. -/
def readWord (bs : List Nat) (off : Nat) : Nat :=
  bs.getD off 0 + 256 * bs.getD (off + 1) 0 + 65536 * bs.getD (off + 2) 0 +
    16777216 * bs.getD (off + 3) 0

/-- Modelled from the spec: `PackDescriptor<TrsmBatchedDescriptor>`
(implementation not under `src/`): the 32-byte memory image of the struct,
fields in declaration order. -/
def PackTrsmBatchedDescriptor (d : TrsmBatchedDescriptor) : List Nat :=
  natToBytes4 d.type ++ natToBytes4 d.batch ++ natToBytes4 d.m ++ natToBytes4 d.n ++
    natToBytes4 d.side ++ natToBytes4 d.uplo ++ natToBytes4 d.trans ++ natToBytes4 d.diag

/-- Modelled from the spec: `PackDescriptor<GetrfBatchedDescriptor>`
(implementation not under `src/`): the 12-byte memory image of the struct. -/
def PackGetrfBatchedDescriptor (d : GetrfBatchedDescriptor) : List Nat :=
  natToBytes4 d.type ++ natToBytes4 d.batch ++ natToBytes4 d.n

/-- Modelled from the spec: `UnpackDescriptor<TrsmBatchedDescriptor>`
(implementation not under `src/`): fails with a size-mismatch error unless
the byte length equals the 32-byte layout size, and otherwise reinterprets
the bytes as the struct — the length check is the only validation. -/
def UnpackTrsmBatchedDescriptor (bs : List Nat) : Except String TrsmBatchedDescriptor :=
  if bs.length = 32 then
    .ok { type := readWord bs 0, batch := readWord bs 4, m := readWord bs 8,
          n := readWord bs 12, side := readWord bs 16, uplo := readWord bs 20,
          trans := readWord bs 24, diag := readWord bs 28 }
  else .error "UnpackDescriptor: size mismatch"

/-- Modelled from the spec: `UnpackDescriptor<GetrfBatchedDescriptor>`
(implementation not under `src/`): length check against the 12-byte layout
size, then unvalidated reinterpretation. -/
def UnpackGetrfBatchedDescriptor (bs : List Nat) : Except String GetrfBatchedDescriptor :=
  if bs.length = 12 then
    .ok { type := readWord bs 0, batch := readWord bs 4, n := readWord bs 8 }
  else .error "UnpackDescriptor: size mismatch"

/-- A descriptor value the encoding side can produce: the type tag is one of
the four supported tags, batch and shape parameters are `≥ 1` (spec §3
invariant) and fit in a 32-bit `int`, and the mode fields are cuBLAS enum
constants. -/
def TrsmBatchedDescriptor.Valid (d : TrsmBatchedDescriptor) : Prop :=
  d.type < 4 ∧ 0 < d.batch ∧ d.batch < 2 ^ 31 ∧ 0 < d.m ∧ d.m < 2 ^ 31 ∧
    0 < d.n ∧ d.n < 2 ^ 31 ∧ d.side < 2 ∧ d.uplo < 2 ∧ d.trans < 3 ∧ d.diag < 2

instance (d : TrsmBatchedDescriptor) : Decidable d.Valid := by
  unfold TrsmBatchedDescriptor.Valid; infer_instance

/-- Validity for `GetrfBatchedDescriptor` values (spec §3 invariant). -/
def GetrfBatchedDescriptor.Valid (d : GetrfBatchedDescriptor) : Prop :=
  d.type < 4 ∧ 0 < d.batch ∧ d.batch < 2 ^ 31 ∧ 0 < d.n ∧ d.n < 2 ^ 31

instance (d : GetrfBatchedDescriptor) : Decidable d.Valid := by
  unfold GetrfBatchedDescriptor.Valid; infer_instance

/-- Function `BuildTrsmBatchedDescriptor` from `cublas.cc`: scratch size
`batch * sizeof(void*)` plus the packed descriptor; the dtype is passed by
its kind character and item size (the two components `DtypeToType`
inspects). -/
def BuildTrsmBatchedDescriptor (kind : Char) (itemsize batch m n : Nat)
    (left_side lower trans_a conj_a unit_diagonal : Bool) :
    Except String (Nat × List Nat) :=
  match DtypeToType kind itemsize with
  | .error e => .error e
  | .ok ty =>
    .ok (batch * ptrSize, PackTrsmBatchedDescriptor
      { type := ty, batch := batch, m := m, n := n,
        side := if left_side then CUBLAS_SIDE_LEFT else CUBLAS_SIDE_RIGHT,
        uplo := if lower then CUBLAS_FILL_MODE_LOWER else CUBLAS_FILL_MODE_UPPER,
        trans := if trans_a then (if conj_a then CUBLAS_OP_C else CUBLAS_OP_T)
                 else CUBLAS_OP_N,
        diag := if unit_diagonal then CUBLAS_DIAG_UNIT else CUBLAS_DIAG_NON_UNIT })

/-- Function `BuildGetrfBatchedDescriptor` from `cublas.cc`. -/
def BuildGetrfBatchedDescriptor (kind : Char) (itemsize b n : Nat) :
    Except String (Nat × List Nat) :=
  match DtypeToType kind itemsize with
  | .error e => .error e
  | .ok ty => .ok (b * ptrSize, PackGetrfBatchedDescriptor { type := ty, batch := b, n := n })

/-! The handle pool

`BlasHandlePool = HandlePool<cublasHandle_t, cudaStream_t>` with the
`Borrow` specialization from `cublas.cc` lines 44–60.  The pool state is the
`handles_` map from stream to idle handle vector (back of the C++ vector =
last list element), together with the stream each live cublas handle is
currently bound to (the device-side effect of `cublasSetStream`) and a
counter supplying fresh handle identities for `cublasCreate`.  A freshly
created cublas handle is associated with the default (null) stream.
Outcomes of the external cuBLAS/CUDA calls are supplied by `CudaEnv`.
The mutex serializes concurrent borrows; each borrow is embedded as one
atomic state transition. -/

structure PoolState where
  idle : Nat → List Nat
  bound : Nat → Nat
  nextId : Nat

/-- Success/failure outcomes of the external CUDA and cuBLAS calls one
dispatcher invocation performs, plus the per-matrix status codes the
`getrf` vendor routine writes into the caller's `info` buffer. -/
structure CudaEnv where
  createFails : Bool
  setStreamFails : Bool
  memcpyFails : Bool
  batchPtrsFails : Bool
  syncFails : Bool
  vendorFails : Bool
  infoValues : List Nat

/-- The RAII `Handle(pool, handle, stream)` object `Borrow` returns. -/
structure BorrowedHandle where
  handle : Nat
  stream : Nat
deriving DecidableEq, Repr

/-- Bookkeeping steps a borrow performs, for stating which external calls
were made. -/
inductive PoolEvent where
  | create (h : Nat)
  | popIdle (stream h : Nat)
  | setStream (h stream : Nat)
deriving DecidableEq, Repr

/-- Shared tail of `Borrow`: the `if (stream) cublasSetStream` step and the
construction of the returned `Handle`. -/
def finishBorrow (st : PoolState) (env : CudaEnv) (stream h : Nat)
    (tr : List PoolEvent) :
    Except String BorrowedHandle × PoolState × List PoolEvent :=
  if stream ≠ 0 then
    if env.setStreamFails then (.error "cublasSetStream failed", st, tr)
    else (.ok ⟨h, stream⟩,
          { st with bound := fun x => if x = h then stream else st.bound x },
          tr ++ [.setStream h stream])
  else (.ok ⟨h, stream⟩, st, tr)

/-- Function `BlasHandlePool::Borrow` from `cublas.cc`: if the idle list for `stream`
is empty, create a handle (propagating creation failure); otherwise pop the
back of the idle vector; then, when `stream` is non-null, bind the handle to
`stream` with `cublasSetStream`. -/
def Borrow (st : PoolState) (env : CudaEnv) (stream : Nat) :
    Except String BorrowedHandle × PoolState × List PoolEvent :=
  if (st.idle stream).isEmpty then
    if env.createFails then (.error "cublasCreate failed", st, [])
    else
      let h := st.nextId
      let st1 : PoolState :=
        { st with nextId := st.nextId + 1,
                  bound := fun x => if x = h then 0 else st.bound x }
      finishBorrow st1 env stream h [.create h]
  else
    let h := (st.idle stream).getLast!
    let st1 : PoolState :=
      { st with idle := fun s => if s = stream then (st.idle stream).dropLast else st.idle s }
    finishBorrow st1 env stream h [.popIdle stream h]

/-! Stream-ordered device effects of a dispatcher call -/

/-- Device-visible operations a dispatcher issues, in stream issue order.
The vendor-call events record the buffers the routine writes through
(spec §4.4 side effects): `trsmBatchedCall` solves in place in the working
matrices `bData` via the pointer array `bPtrs`, reading `aPtrs`;
`getrfBatchedCall` factorizes in place in `aData` via `aPtrs` and writes
pivots into `ipiv` and the per-matrix status codes into `info`. -/
inductive Event where
  | memcpyD2D (dst src bytes : Nat)
  | h2dCopy (dst bytes : Nat)
  | streamSync
  | trsmBatchedCall (aPtrs bPtrs bData : Nat)
  | getrfBatchedCall (aPtrs aData ipiv info : Nat) (statuses : List Nat)
deriving DecidableEq, Repr

/-- Buffer addresses an event writes to. -/
def Event.writeAddrs : Event → List Nat
  | .memcpyD2D dst _ _ => [dst]
  | .h2dCopy dst _ => [dst]
  | .streamSync => []
  | .trsmBatchedCall _ _ bData => [bData]
  | .getrfBatchedCall _ aData ipiv info _ => [aData, ipiv, info]

/-- The byte sizes of the batch-pointer staging copies in a trace, in
order. -/
def h2dSizes (tr : List Event) : List Nat :=
  tr.filterMap fun e => match e with
    | .h2dCopy _ bytes => some bytes
    | _ => none

/-- Modelled from the spec: the implementation of `MakeBatchPointers` is not
under `src/` (only its declaration in the gpu-kernel-helpers header); §4.3:
computes `buffer + i * batch_elem_size` for `i ∈ [0, batch)`, writes the
`batch` addresses into a host-allocated array, and enqueues an asynchronous
host-to-device copy of that array (`batch * sizeof(void*)` bytes) into
`dev_ptrs` on `stream`, returning ownership of the host array; reports an
error (environment flag `fails`) if the enqueue fails, with no effect. -/
def MakeBatchPointers (stream buffer dev_ptrs batch batch_elem_size : Nat)
    (fails : Bool) : Except String (List Nat × List Event) :=
  if fails then .error "MakeBatchPointers failed"
  else .ok ((List.range batch).map fun i => buffer + i * batch_elem_size,
            [.h2dCopy dev_ptrs (batch * ptrSize)])

/-! Operation dispatchers

`TrsmBatched_` and `GetrfBatched_` from `cublas.cc`.  `buffers` maps the
positional buffer index to the buffer's device address; the `opaque` byte
string and its length are embedded together as `desc : List Nat`.  The
result is the returned `absl::Status`, the pool state after the embedded
`Borrow`, and the trace of device operations issued on `stream`. -/

def TrsmBatched_ (st : PoolState) (env : CudaEnv) (stream : Nat)
    (buffers : Nat → Nat) (desc : List Nat) :
    Except String Unit × PoolState × List Event :=
  match UnpackTrsmBatchedDescriptor desc with
  | .error e => (.error e, st, [])
  | .ok d =>
    match Borrow st env stream with
    | (.error e, st1, _) => (.error e, st1, [])
    | (.ok _hdl, st1, _) =>
      if buffers 2 ≠ buffers 1 ∧ env.memcpyFails then
        (.error "cudaMemcpyAsync failed", st1, [])
      else
        let copyTr : List Event :=
          if buffers 2 ≠ buffers 1 then
            [.memcpyD2D (buffers 2) (buffers 1)
              (SizeOfType d.type * d.batch * d.m * d.n)]
          else []
        let lda := if d.side = CUBLAS_SIDE_LEFT then d.m else d.n
        match MakeBatchPointers stream (buffers 0) (buffers 3) d.batch
            (SizeOfType d.type * lda * lda) env.batchPtrsFails with
        | .error e => (.error e, st1, copyTr)
        | .ok (_aHost, evA) =>
          match MakeBatchPointers stream (buffers 2) (buffers 4) d.batch
              (SizeOfType d.type * d.m * d.n) env.batchPtrsFails with
          | .error e => (.error e, st1, copyTr ++ evA)
          | .ok (_bHost, evB) =>
            if env.syncFails then
              (.error "cudaStreamSynchronize failed", st1, copyTr ++ evA ++ evB)
            else
              let preTr := copyTr ++ evA ++ evB ++ [.streamSync]
              if d.type = F32 ∨ d.type = F64 ∨ d.type = C64 ∨ d.type = C128 then
                if env.vendorFails then
                  (.error "cublas trsmBatched failed", st1, preTr)
                else
                  (.ok (), st1,
                   preTr ++ [.trsmBatchedCall (buffers 3) (buffers 4) (buffers 2)])
              else (.ok (), st1, preTr)

/-- Function `TrsmBatched` from `cublas.cc`: the custom-call entry point; flattens the
status into the `XlaCustomCallStatus` sink (`some message` = failure was
written, `none` = nothing written). -/
def TrsmBatched (st : PoolState) (env : CudaEnv) (stream : Nat)
    (buffers : Nat → Nat) (desc : List Nat) :
    Option String × PoolState × List Event :=
  match TrsmBatched_ st env stream buffers desc with
  | (.ok _, st1, tr) => (none, st1, tr)
  | (.error e, st1, tr) => (some e, st1, tr)

def GetrfBatched_ (st : PoolState) (env : CudaEnv) (stream : Nat)
    (buffers : Nat → Nat) (desc : List Nat) :
    Except String Unit × PoolState × List Event :=
  match UnpackGetrfBatchedDescriptor desc with
  | .error e => (.error e, st, [])
  | .ok d =>
    match Borrow st env stream with
    | (.error e, st1, _) => (.error e, st1, [])
    | (.ok _hdl, st1, _) =>
      if buffers 0 ≠ buffers 1 ∧ env.memcpyFails then
        (.error "cudaMemcpyAsync failed", st1, [])
      else
        let copyTr : List Event :=
          if buffers 0 ≠ buffers 1 then
            [.memcpyD2D (buffers 1) (buffers 0)
              (SizeOfType d.type * d.batch * d.n * d.n)]
          else []
        match MakeBatchPointers stream (buffers 1) (buffers 4) d.batch
            (SizeOfType d.type * d.n * d.n) env.batchPtrsFails with
        | .error e => (.error e, st1, copyTr)
        | .ok (_aHost, evA) =>
          if env.syncFails then
            (.error "cudaStreamSynchronize failed", st1, copyTr ++ evA)
          else
            let preTr := copyTr ++ evA ++ [.streamSync]
            if d.type = F32 ∨ d.type = F64 ∨ d.type = C64 ∨ d.type = C128 then
              if env.vendorFails then
                (.error "cublas getrfBatched failed", st1, preTr)
              else
                (.ok (), st1,
                 preTr ++ [.getrfBatchedCall (buffers 4) (buffers 1) (buffers 2)
                            (buffers 3) env.infoValues])
            else (.ok (), st1, preTr)

/-- Function `GetrfBatched` from `cublas.cc`: the custom-call entry point. -/
def GetrfBatched (st : PoolState) (env : CudaEnv) (stream : Nat)
    (buffers : Nat → Nat) (desc : List Nat) :
    Option String × PoolState × List Event :=
  match GetrfBatched_ st env stream buffers desc with
  | (.ok _, st1, tr) => (none, st1, tr)
  | (.error e, st1, tr) => (some e, st1, tr)

/-- The exact condition under which `Borrow` reports an error: creation
failure on an empty idle list, or rebinding failure for a non-null stream. -/
def BorrowFails (st : PoolState) (env : CudaEnv) (stream : Nat) : Prop :=
  ((st.idle stream).isEmpty = true ∧ env.createFails = true) ∨
    (stream ≠ 0 ∧ env.setStreamFails = true)

instance (st : PoolState) (env : CudaEnv) (stream : Nat) :
    Decidable (BorrowFails st env stream) := by
  unfold BorrowFails; infer_instance

/-! Concrete fixtures for witnesses and counterexamples -/

/-- An environment in which every external CUDA/cuBLAS call succeeds. -/
def envOk : CudaEnv :=
  { createFails := false, setStreamFails := false, memcpyFails := false,
    batchPtrsFails := false, syncFails := false, vendorFails := false,
    infoValues := [] }

/-- A pool with one idle handle (id 7) on the null stream's idle list, the
handle still bound to stream 5 from its previous use. -/
def poolStale : PoolState :=
  { idle := fun s => if s = 0 then [7] else [], bound := fun _ => 5, nextId := 8 }

/-- An empty pool. -/
def poolEmpty : PoolState := { idle := fun _ => [], bound := fun _ => 0, nextId := 0 }

/-- The value read back from the little-endian byte image of a 32-bit
field. -/
def decodeWord (v : Nat) : Nat :=
  v % 256 + 256 * (v / 256 % 256) + 65536 * (v / 65536 % 256) +
    16777216 * (v / 16777216 % 256)

/-- A concrete valid solve descriptor: f32, batch 2, 3×3 left/lower solve. -/
def trsmDescEx : TrsmBatchedDescriptor :=
  { type := F32, batch := 2, m := 3, n := 3, side := CUBLAS_SIDE_LEFT,
    uplo := CUBLAS_FILL_MODE_LOWER, trans := CUBLAS_OP_N,
    diag := CUBLAS_DIAG_NON_UNIT }

/-- A concrete valid factorization descriptor: f64, batch 2, 3×3. -/
def getrfDescEx : GetrfBatchedDescriptor := { type := F64, batch := 2, n := 3 }

/-- Distinct concrete buffer addresses for witnesses. -/
def bufEx : Nat → Nat := fun i => 100 * (i + 1)

/-- The device-to-device staging copies contained in a trace. -/
def memcpyEvents (tr : List Event) : List Event :=
  tr.filter fun e => match e with
    | .memcpyD2D _ _ _ => true
    | _ => false

/-- A device memory operation of `TrsmBatched_` fails: the staging copy
(only attempted when the buffers are distinct), a batch-pointer enqueue, or
the stream synchronization completing them. -/
def TrsmDevMemFails (env : CudaEnv) (buffers : Nat → Nat) : Prop :=
  (buffers 2 ≠ buffers 1 ∧ env.memcpyFails = true) ∨
    env.batchPtrsFails = true ∨ env.syncFails = true

/-- A device memory operation of `GetrfBatched_` fails. -/
def GetrfDevMemFails (env : CudaEnv) (buffers : Nat → Nat) : Prop :=
  (buffers 0 ≠ buffers 1 ∧ env.memcpyFails = true) ∨
    env.batchPtrsFails = true ∨ env.syncFails = true

/-- The descriptor's type tag (its first 32-bit field) selects one of the
four vendor code paths, so the vendor routine is actually invoked. -/
def TypeDispatched (desc : List Nat) : Prop :=
  readWord desc 0 = F32 ∨ readWord desc 0 = F64 ∨
    readWord desc 0 = C64 ∨ readWord desc 0 = C128

instance (env : CudaEnv) (buffers : Nat → Nat) :
    Decidable (TrsmDevMemFails env buffers) := by
  unfold TrsmDevMemFails; infer_instance

instance (env : CudaEnv) (buffers : Nat → Nat) :
    Decidable (GetrfDevMemFails env buffers) := by
  unfold GetrfDevMemFails; infer_instance

instance (desc : List Nat) : Decidable (TypeDispatched desc) := by
  unfold TypeDispatched; infer_instance

/-- An otherwise clean environment in which the vendor routine reports
matrix 1 of the batch as singular through the `info` buffer. -/
def envSingular : CudaEnv := { envOk with infoValues := [0, 3] }

/-! Borrow lemmas -/

theorem borrow_fst_error_iff (st : PoolState) (env : CudaEnv) (stream : Nat) :
    (∃ e, (Borrow st env stream).1 = Except.error e) ↔ BorrowFails st env stream := by
  unfold Borrow finishBorrow BorrowFails
  by_cases he : (st.idle stream).isEmpty = true <;>
    by_cases hc : env.createFails = true <;>
      by_cases hs : stream ≠ 0 <;>
        by_cases hss : env.setStreamFails = true <;>
          simp [he, hc, hs, hss]

theorem borrow_ok_not_fails (st : PoolState) (env : CudaEnv) (stream : Nat)
    (hdl : BorrowedHandle) (hok : (Borrow st env stream).1 = Except.ok hdl) :
    ¬ BorrowFails st env stream := by
  intro hb
  obtain ⟨e, he⟩ := (borrow_fst_error_iff st env stream).2 hb
  rw [hok] at he
  exact Except.noConfusion he

theorem finishBorrow_ok (st : PoolState) (env : CudaEnv) (stream h : Nat)
    (tr : List PoolEvent) (hdl : BorrowedHandle) (hs : stream ≠ 0)
    (hok : (finishBorrow st env stream h tr).1 = Except.ok hdl) :
    hdl = ⟨h, stream⟩ ∧
    (finishBorrow st env stream h tr).2.1.bound h = stream ∧
    (finishBorrow st env stream h tr).2.2 = tr ++ [PoolEvent.setStream h stream] := by
  unfold finishBorrow at hok ⊢
  rw [if_pos hs] at hok ⊢
  by_cases hss : env.setStreamFails = true
  · rw [if_pos hss] at hok; exact absurd hok (by simp)
  · rw [if_neg hss] at hok ⊢
    simp only [Except.ok.injEq] at hok
    subst hok
    refine ⟨rfl, by simp, rfl⟩

/-- C1 counterexample: with the null stream supplied, `Borrow` returns idle
handle 7 without rebinding it — the handle stays bound to stream 5, not to
the supplied stream, because the `if (stream)` guard skips `cublasSetStream`. -/
theorem borrow_rebind_counterexample :
    (Borrow poolStale envOk 0).1 = Except.ok ⟨7, 0⟩ ∧
    (Borrow poolStale envOk 0).2.1.bound 7 = 5 ∧
    (Borrow poolStale envOk 0).2.2 = [PoolEvent.popIdle 0 7] := by
  refine ⟨rfl, rfl, rfl⟩

/-- C1 (amended to non-null streams): every `Borrow` call with a non-null
supplied stream that returns a handle has rebound that handle to the
supplied stream (`cublasSetStream` was issued) before returning it,
regardless of the handle's previous binding. -/
theorem borrow_rebinds_to_supplied_stream (st : PoolState) (env : CudaEnv)
    (stream : Nat) (hdl : BorrowedHandle) (hs : stream ≠ 0)
    (hok : (Borrow st env stream).1 = Except.ok hdl) :
    (Borrow st env stream).2.1.bound hdl.handle = stream ∧
    PoolEvent.setStream hdl.handle stream ∈ (Borrow st env stream).2.2 := by
  unfold Borrow at hok ⊢
  by_cases he : (st.idle stream).isEmpty = true
  · rw [if_pos he] at hok ⊢
    by_cases hc : env.createFails = true
    · rw [if_pos hc] at hok; exact absurd hok (by simp)
    · rw [if_neg hc] at hok ⊢
      obtain ⟨h1, h2, h3⟩ := finishBorrow_ok _ env stream st.nextId _ hdl hs hok
      subst h1
      exact ⟨h2, by rw [h3]; simp⟩
  · rw [if_neg he] at hok ⊢
    obtain ⟨h1, h2, h3⟩ := finishBorrow_ok _ env stream _ _ hdl hs hok
    subst h1
    exact ⟨h2, by rw [h3]; simp⟩

/-- Witness for the amended C1: borrowing the stale handle for stream 9
rebinds it to 9. -/
theorem borrow_rebinds_to_supplied_stream_witness :
    (9 : Nat) ≠ 0 ∧ (Borrow poolStale envOk 9).1 = Except.ok ⟨8, 9⟩ ∧
    (Borrow poolStale envOk 9).2.1.bound 8 = 9 := by
  refine ⟨by decide, rfl,
    (borrow_rebinds_to_supplied_stream poolStale envOk 9 ⟨8, 9⟩ (by decide) rfl).1⟩

/-- C6: when the idle list for the stream is empty and handle creation
fails, `Borrow` returns the creation error and leaves the pool state
entirely unchanged — in particular the idle-list mapping contains no handle
that was not there before the call. -/
theorem borrow_create_failure_preserves_pool (st : PoolState) (env : CudaEnv)
    (stream : Nat) (he : (st.idle stream).isEmpty = true)
    (hc : env.createFails = true) :
    Borrow st env stream = (Except.error "cublasCreate failed", st, []) := by
  unfold Borrow
  rw [if_pos he, if_pos hc]

/-- Witness for C6 on the empty pool with a failing `cublasCreate`. -/
theorem borrow_create_failure_preserves_pool_witness :
    ((poolEmpty.idle 3).isEmpty = true ∧
      ({ envOk with createFails := true } : CudaEnv).createFails = true) ∧
    Borrow poolEmpty { envOk with createFails := true } 3 =
      (Except.error "cublasCreate failed", poolEmpty, []) :=
  ⟨⟨rfl, rfl⟩,
   borrow_create_failure_preserves_pool poolEmpty { envOk with createFails := true } 3 rfl rfl⟩

/-- C9: when the supplied stream is null, the `if (stream)` guard skips
`cublasSetStream` entirely: no rebinding step appears among the borrow's
bookkeeping events, and the returned handle keeps the stream association it
last had — the creation default (the null stream) if freshly created, its
previous binding if taken from an idle list. -/
theorem borrow_null_stream_skips_rebind (st : PoolState) (env : CudaEnv) :
    (∀ h s, PoolEvent.setStream h s ∉ (Borrow st env 0).2.2) ∧
    (∀ hdl : BorrowedHandle, (Borrow st env 0).1 = Except.ok hdl →
      (Borrow st env 0).2.1.bound hdl.handle =
        if (st.idle 0).isEmpty then 0 else st.bound hdl.handle) := by
  unfold Borrow finishBorrow
  by_cases he : (st.idle 0).isEmpty = true
  · rw [if_pos he]
    by_cases hc : env.createFails = true
    · rw [if_pos hc]
      exact ⟨by simp, fun hdl h => absurd h (by simp)⟩
    · rw [if_neg hc]
      simp only [ne_eq, not_true_eq_false, reduceIte, he, if_true]
      refine ⟨by simp, fun hdl h => ?_⟩
      simp only [Except.ok.injEq] at h
      subst h
      simp
  · rw [if_neg he]
    simp only [ne_eq, not_true_eq_false, reduceIte, he, if_false]
    refine ⟨by simp, fun hdl h => ?_⟩
    simp only [Except.ok.injEq] at h
    subst h
    simp

/-- Witness for C9: both the fresh-creation case (empty pool) and the
idle-reuse case (stale pool) at the null stream. -/
theorem borrow_null_stream_skips_rebind_witness :
    ((Borrow poolStale envOk 0).1 = Except.ok ⟨7, 0⟩ ∧
      (Borrow poolStale envOk 0).2.1.bound 7 =
        if (poolStale.idle 0).isEmpty then 0 else poolStale.bound 7) ∧
    ((Borrow poolEmpty envOk 0).1 = Except.ok ⟨0, 0⟩ ∧
      (Borrow poolEmpty envOk 0).2.1.bound 0 =
        if (poolEmpty.idle 0).isEmpty then 0 else poolEmpty.bound 0) :=
  ⟨⟨rfl, (borrow_null_stream_skips_rebind poolStale envOk).2 ⟨7, 0⟩ rfl⟩,
   ⟨rfl, (borrow_null_stream_skips_rebind poolEmpty envOk).2 ⟨0, 0⟩ rfl⟩⟩

/-! Descriptor codec round trip -/

theorem decodeWord_eq (v : Nat) (hv : v < 4294967296) : decodeWord v = v := by
  unfold decodeWord; omega

/-- C2: for every valid descriptor value, unpacking the bytes produced by
packing it yields the descriptor back, field for field, for both
`TrsmBatchedDescriptor` and `GetrfBatchedDescriptor`. -/
theorem unpack_pack_roundtrip (dt : TrsmBatchedDescriptor)
    (dg : GetrfBatchedDescriptor) (ht : dt.Valid) (hg : dg.Valid) :
    UnpackTrsmBatchedDescriptor (PackTrsmBatchedDescriptor dt) = Except.ok dt ∧
    UnpackGetrfBatchedDescriptor (PackGetrfBatchedDescriptor dg) = Except.ok dg := by
  constructor
  · obtain ⟨t, b, m, n, s, u, tr, dg'⟩ := dt
    obtain ⟨h1, h2, h3, h4, h5, h6, h7, h8, h9, h10, h11⟩ := ht
    have hred : UnpackTrsmBatchedDescriptor (PackTrsmBatchedDescriptor ⟨t, b, m, n, s, u, tr, dg'⟩) =
        Except.ok ⟨decodeWord t, decodeWord b, decodeWord m, decodeWord n,
                   decodeWord s, decodeWord u, decodeWord tr, decodeWord dg'⟩ := rfl
    rw [hred]
    simp only [Except.ok.injEq, TrsmBatchedDescriptor.mk.injEq]
    simp only [TrsmBatchedDescriptor.Valid] at *
    refine ⟨?_, ?_, ?_, ?_, ?_, ?_, ?_, ?_⟩ <;> apply decodeWord_eq <;> omega
  · obtain ⟨t, b, n⟩ := dg
    obtain ⟨h1, h2, h3, h4, h5⟩ := hg
    simp only at h1 h2 h3 h4 h5
    have hred : UnpackGetrfBatchedDescriptor (PackGetrfBatchedDescriptor ⟨t, b, n⟩) =
        Except.ok ⟨decodeWord t, decodeWord b, decodeWord n⟩ := rfl
    rw [hred]
    simp only [Except.ok.injEq, GetrfBatchedDescriptor.mk.injEq]
    refine ⟨?_, ?_, ?_⟩ <;> apply decodeWord_eq <;> omega

/-- Witness for C2 at the concrete descriptors. -/
theorem unpack_pack_roundtrip_witness :
    (trsmDescEx.Valid ∧ getrfDescEx.Valid) ∧
    UnpackTrsmBatchedDescriptor (PackTrsmBatchedDescriptor trsmDescEx) = Except.ok trsmDescEx ∧
    UnpackGetrfBatchedDescriptor (PackGetrfBatchedDescriptor getrfDescEx) = Except.ok getrfDescEx :=
  ⟨⟨by decide, by decide⟩,
   (unpack_pack_roundtrip trsmDescEx getrfDescEx (by decide) (by decide)).1,
   (unpack_pack_roundtrip trsmDescEx getrfDescEx (by decide) (by decide)).2⟩

/-- C3: a byte length differing from the fixed layout size (32 bytes for
`TrsmBatchedDescriptor`, 12 for `GetrfBatchedDescriptor`) makes decoding
fail with the size-mismatch error; a byte length exactly equal to the layout
size always decodes (the length check is the only validation); and on a
mismatch each dispatcher returns that error with the pool state untouched
and no device operation issued. -/
theorem unpack_size_mismatch_only_validation (bs : List Nat) (st : PoolState)
    (env : CudaEnv) (stream : Nat) (buffers : Nat → Nat) :
    (bs.length ≠ 32 →
      UnpackTrsmBatchedDescriptor bs = Except.error "UnpackDescriptor: size mismatch") ∧
    (bs.length = 32 → ∃ d, UnpackTrsmBatchedDescriptor bs = Except.ok d) ∧
    (bs.length ≠ 12 →
      UnpackGetrfBatchedDescriptor bs = Except.error "UnpackDescriptor: size mismatch") ∧
    (bs.length = 12 → ∃ d, UnpackGetrfBatchedDescriptor bs = Except.ok d) ∧
    (bs.length ≠ 32 →
      TrsmBatched_ st env stream buffers bs =
        (Except.error "UnpackDescriptor: size mismatch", st, [])) ∧
    (bs.length ≠ 12 →
      GetrfBatched_ st env stream buffers bs =
        (Except.error "UnpackDescriptor: size mismatch", st, [])) := by
  refine ⟨fun h => by simp [UnpackTrsmBatchedDescriptor, h],
          fun h => ⟨{ type := readWord bs 0, batch := readWord bs 4, m := readWord bs 8,
                      n := readWord bs 12, side := readWord bs 16, uplo := readWord bs 20,
                      trans := readWord bs 24, diag := readWord bs 28 },
                    by simp [UnpackTrsmBatchedDescriptor, h]⟩,
          fun h => by simp [UnpackGetrfBatchedDescriptor, h],
          fun h => ⟨{ type := readWord bs 0, batch := readWord bs 4, n := readWord bs 8 },
                    by simp [UnpackGetrfBatchedDescriptor, h]⟩,
          fun h => ?_, fun h => ?_⟩
  · unfold TrsmBatched_
    rw [show UnpackTrsmBatchedDescriptor bs =
          Except.error "UnpackDescriptor: size mismatch" by
        simp [UnpackTrsmBatchedDescriptor, h]]
  · unfold GetrfBatched_
    rw [show UnpackGetrfBatchedDescriptor bs =
          Except.error "UnpackDescriptor: size mismatch" by
        simp [UnpackGetrfBatchedDescriptor, h]]

/-- Witness for C3 at a 3-byte string. -/
theorem unpack_size_mismatch_only_validation_witness :
    (([0, 1, 2] : List Nat).length ≠ 32 ∧ ([0, 1, 2] : List Nat).length ≠ 12) ∧
    TrsmBatched_ poolEmpty envOk 0 (fun _ => 0) [0, 1, 2] =
      (Except.error "UnpackDescriptor: size mismatch", poolEmpty, []) ∧
    GetrfBatched_ poolEmpty envOk 0 (fun _ => 0) [0, 1, 2] =
      (Except.error "UnpackDescriptor: size mismatch", poolEmpty, []) :=
  ⟨⟨by decide, by decide⟩,
   (unpack_size_mismatch_only_validation [0, 1, 2] poolEmpty envOk 0 (fun _ => 0)).2.2.2.2.1
     (by decide),
   (unpack_size_mismatch_only_validation [0, 1, 2] poolEmpty envOk 0 (fun _ => 0)).2.2.2.2.2
     (by decide)⟩

/-! Batch pointer builder -/

/-- C7: `MakeBatchPointers` returns a host staging array of exactly `batch`
addresses with entry `i` equal to `buffer + i * batch_elem_size`, and
enqueues one asynchronous host-to-device copy of that array
(`batch * sizeof(void*)` bytes) into `dev_ptrs` on the stream; for
`batch = 4` and stride 64 the array is `[A, A+64, A+128, A+192]`. -/
theorem makeBatchPointers_addresses (stream A dev batch stride : Nat) :
    ∃ arr : List Nat,
      MakeBatchPointers stream A dev batch stride false =
        Except.ok (arr, [Event.h2dCopy dev (batch * ptrSize)]) ∧
      arr.length = batch ∧
      (∀ i, i < batch → arr.getD i 0 = A + i * stride) ∧
      (batch = 4 → stride = 64 → arr = [A, A + 64, A + 128, A + 192]) := by
  refine ⟨(List.range batch).map fun i => A + i * stride, rfl, by simp, ?_, ?_⟩
  · intro i hi
    simp [List.getD_eq_getElem?_getD, List.getElem?_map, List.getElem?_range, hi]
  · rintro rfl rfl
    rfl

/-- Witness for C7 at batch 4, stride 64, base address 1000. -/
theorem makeBatchPointers_addresses_witness :
    ∃ arr : List Nat,
      MakeBatchPointers 1 1000 2000 4 64 false =
        Except.ok (arr, [Event.h2dCopy 2000 (4 * ptrSize)]) ∧
      arr.length = 4 ∧
      (∀ i, i < 4 → arr.getD i 0 = 1000 + i * 64) ∧
      arr = [1000, 1064, 1128, 1192] := by
  obtain ⟨arr, h1, h2, h3, h4⟩ := makeBatchPointers_addresses 1 1000 2000 4 64
  exact ⟨arr, h1, h2, h3, by rw [h4 rfl rfl]⟩

/-! Dispatcher trace analysis -/

/-- C5: the staging device-to-device copy is issued if and only if the
source and destination buffer addresses differ; when issued it transfers
exactly `element_size * batch * m * n` bytes (`element_size * batch * n * n`
for `GetrfBatched_`) and is the first operation issued on the stream.
Stated for any descriptor bytes that decode to `dt` (resp. `dg`), on an
invocation whose borrow succeeds and whose copy enqueue does not
itself fail. -/
theorem staging_copy_iff_distinct (st : PoolState) (env : CudaEnv) (stream : Nat)
    (buffers : Nat → Nat) (descT descG : List Nat)
    (dt : TrsmBatchedDescriptor) (dg : GetrfBatchedDescriptor)
    (hUT : UnpackTrsmBatchedDescriptor descT = Except.ok dt)
    (hUG : UnpackGetrfBatchedDescriptor descG = Except.ok dg)
    (hdl : BorrowedHandle) (hok : (Borrow st env stream).1 = Except.ok hdl)
    (hm : env.memcpyFails = false) :
    (memcpyEvents (TrsmBatched_ st env stream buffers descT).2.2 =
      if buffers 2 ≠ buffers 1 then
        [Event.memcpyD2D (buffers 2) (buffers 1)
          (SizeOfType dt.type * dt.batch * dt.m * dt.n)]
      else []) ∧
    (buffers 2 ≠ buffers 1 →
      (TrsmBatched_ st env stream buffers descT).2.2.head? =
        some (Event.memcpyD2D (buffers 2) (buffers 1)
          (SizeOfType dt.type * dt.batch * dt.m * dt.n))) ∧
    (memcpyEvents (GetrfBatched_ st env stream buffers descG).2.2 =
      if buffers 0 ≠ buffers 1 then
        [Event.memcpyD2D (buffers 1) (buffers 0)
          (SizeOfType dg.type * dg.batch * dg.n * dg.n)]
      else []) ∧
    (buffers 0 ≠ buffers 1 →
      (GetrfBatched_ st env stream buffers descG).2.2.head? =
        some (Event.memcpyD2D (buffers 1) (buffers 0)
          (SizeOfType dg.type * dg.batch * dg.n * dg.n))) := by
  rcases hB : Borrow st env stream with ⟨res, st1, btr⟩
  rw [hB] at hok
  simp only at hok
  subst hok
  unfold TrsmBatched_ GetrfBatched_
  rw [hUT, hUG, hB]
  by_cases hd2 : buffers 2 ≠ buffers 1 <;>
    by_cases hd0 : buffers 0 ≠ buffers 1 <;>
      by_cases hbp : env.batchPtrsFails = true <;>
        by_cases hsy : env.syncFails = true <;>
          by_cases hv : env.vendorFails = true <;>
            by_cases htyT : dt.type = F32 ∨ dt.type = F64 ∨ dt.type = C64 ∨ dt.type = C128 <;>
              by_cases htyG : dg.type = F32 ∨ dg.type = F64 ∨ dg.type = C64 ∨ dg.type = C128 <;>
                simp [MakeBatchPointers, memcpyEvents, hd2, hd0, hbp, hsy, hv, htyT, htyG, hm]

/-- Witness for C5: a concrete invocation with distinct staging buffers;
the f32 batch-2 3×3 solve copies exactly 4·2·3·3 = 72 bytes first. -/
theorem staging_copy_iff_distinct_witness :
    (UnpackTrsmBatchedDescriptor (PackTrsmBatchedDescriptor trsmDescEx) =
        Except.ok trsmDescEx ∧
      (Borrow poolEmpty envOk 1).1 = Except.ok ⟨0, 1⟩ ∧ envOk.memcpyFails = false) ∧
    memcpyEvents (TrsmBatched_ poolEmpty envOk 1 bufEx
        (PackTrsmBatchedDescriptor trsmDescEx)).2.2 =
      (if bufEx 2 ≠ bufEx 1 then
        [Event.memcpyD2D (bufEx 2) (bufEx 1)
          (SizeOfType trsmDescEx.type * trsmDescEx.batch * trsmDescEx.m * trsmDescEx.n)]
      else []) ∧
    memcpyEvents (GetrfBatched_ poolEmpty envOk 1 bufEx
        (PackGetrfBatchedDescriptor getrfDescEx)).2.2 =
      (if bufEx 0 ≠ bufEx 1 then
        [Event.memcpyD2D (bufEx 1) (bufEx 0)
          (SizeOfType getrfDescEx.type * getrfDescEx.batch * getrfDescEx.n * getrfDescEx.n)]
      else []) :=
  ⟨⟨rfl, rfl, rfl⟩,
   (staging_copy_iff_distinct poolEmpty envOk 1 bufEx
      (PackTrsmBatchedDescriptor trsmDescEx) (PackGetrfBatchedDescriptor getrfDescEx)
      trsmDescEx getrfDescEx rfl rfl ⟨0, 1⟩ rfl rfl).1,
   (staging_copy_iff_distinct poolEmpty envOk 1 bufEx
      (PackTrsmBatchedDescriptor trsmDescEx) (PackGetrfBatchedDescriptor getrfDescEx)
      trsmDescEx getrfDescEx rfl rfl ⟨0, 1⟩ rfl rfl).2.2.1⟩

/-- Unpacking any packed descriptor succeeds and reads back each 32-bit
field truncated to its byte image (no validity assumption). -/
theorem unpack_pack_trsm_general (d : TrsmBatchedDescriptor) :
    UnpackTrsmBatchedDescriptor (PackTrsmBatchedDescriptor d) =
      Except.ok ⟨decodeWord d.type, decodeWord d.batch, decodeWord d.m,
                 decodeWord d.n, decodeWord d.side, decodeWord d.uplo,
                 decodeWord d.trans, decodeWord d.diag⟩ := by
  obtain ⟨t, b, m, n, s, u, tr, dg⟩ := d
  rfl

theorem unpack_pack_getrf_general (d : GetrfBatchedDescriptor) :
    UnpackGetrfBatchedDescriptor (PackGetrfBatchedDescriptor d) =
      Except.ok ⟨decodeWord d.type, decodeWord d.batch, decodeWord d.n⟩ := by
  obtain ⟨t, b, n⟩ := d
  rfl

/-! Call-level failure characterization -/

theorem trsm_error_iff (st : PoolState) (env : CudaEnv) (stream : Nat)
    (buffers : Nat → Nat) (desc : List Nat) :
    (∃ e, (TrsmBatched_ st env stream buffers desc).1 = Except.error e) ↔
      desc.length ≠ 32 ∨ BorrowFails st env stream ∨
        TrsmDevMemFails env buffers ∨
        (env.vendorFails = true ∧ TypeDispatched desc) := by
  by_cases hlen : desc.length = 32
  · rcases hB : Borrow st env stream with ⟨res, st1, btr⟩
    unfold TrsmBatched_
    simp only [UnpackTrsmBatchedDescriptor, if_pos hlen]
    rw [hB]
    cases res with
    | error e =>
      have hbf : BorrowFails st env stream :=
        (borrow_fst_error_iff st env stream).1 ⟨e, by rw [hB]⟩
      simp [hbf]
    | ok hdl =>
      have hnb : ¬ BorrowFails st env stream :=
        borrow_ok_not_fails st env stream hdl (by rw [hB])
      by_cases hd : buffers 2 ≠ buffers 1 <;>
        by_cases hmf : env.memcpyFails = true <;>
          by_cases hbp : env.batchPtrsFails = true <;>
            by_cases hsy : env.syncFails = true <;>
              by_cases hv : env.vendorFails = true <;>
                by_cases hty : TypeDispatched desc <;>
                  simp_all [MakeBatchPointers, TrsmDevMemFails, TypeDispatched, hlen]
  · unfold TrsmBatched_
    simp [UnpackTrsmBatchedDescriptor, hlen]

theorem getrf_error_iff (st : PoolState) (env : CudaEnv) (stream : Nat)
    (buffers : Nat → Nat) (desc : List Nat) :
    (∃ e, (GetrfBatched_ st env stream buffers desc).1 = Except.error e) ↔
      desc.length ≠ 12 ∨ BorrowFails st env stream ∨
        GetrfDevMemFails env buffers ∨
        (env.vendorFails = true ∧ TypeDispatched desc) := by
  by_cases hlen : desc.length = 12
  · rcases hB : Borrow st env stream with ⟨res, st1, btr⟩
    unfold GetrfBatched_
    simp only [UnpackGetrfBatchedDescriptor, if_pos hlen]
    rw [hB]
    cases res with
    | error e =>
      have hbf : BorrowFails st env stream :=
        (borrow_fst_error_iff st env stream).1 ⟨e, by rw [hB]⟩
      simp [hbf]
    | ok hdl =>
      have hnb : ¬ BorrowFails st env stream :=
        borrow_ok_not_fails st env stream hdl (by rw [hB])
      by_cases hd : buffers 0 ≠ buffers 1 <;>
        by_cases hmf : env.memcpyFails = true <;>
          by_cases hbp : env.batchPtrsFails = true <;>
            by_cases hsy : env.syncFails = true <;>
              by_cases hv : env.vendorFails = true <;>
                by_cases hty : TypeDispatched desc <;>
                  simp_all [MakeBatchPointers, GetrfDevMemFails, TypeDispatched, hlen]
  · unfold GetrfBatched_
    simp [UnpackGetrfBatchedDescriptor, hlen]

theorem trsm_sink_iff_error (st : PoolState) (env : CudaEnv) (stream : Nat)
    (buffers : Nat → Nat) (desc : List Nat) :
    ((TrsmBatched st env stream buffers desc).1 ≠ none ↔
      ∃ e, (TrsmBatched_ st env stream buffers desc).1 = Except.error e) := by
  unfold TrsmBatched
  rcases h : TrsmBatched_ st env stream buffers desc with ⟨res, st1, tr⟩
  cases res <;> simp

theorem getrf_sink_iff_error (st : PoolState) (env : CudaEnv) (stream : Nat)
    (buffers : Nat → Nat) (desc : List Nat) :
    ((GetrfBatched st env stream buffers desc).1 ≠ none ↔
      ∃ e, (GetrfBatched_ st env stream buffers desc).1 = Except.error e) := by
  unfold GetrfBatched
  rcases h : GetrfBatched_ st env stream buffers desc with ⟨res, st1, tr⟩
  cases res <;> simp

/-- The borrow outcome does not depend on the per-matrix status codes the
environment will deliver. -/
theorem borrow_info_irrelevant (st : PoolState) (env : CudaEnv) (stream : Nat)
    (xs : List Nat) :
    Borrow st { env with infoValues := xs } stream = Borrow st env stream := rfl

/-- The status the factorize dispatcher writes into the sink is independent
of the per-matrix status codes: they reach only the `info` buffer contents
recorded in the vendor-call trace event, never the call-level status. -/
theorem getrf_sink_info_irrelevant (st : PoolState) (env : CudaEnv) (stream : Nat)
    (buffers : Nat → Nat) (desc : List Nat) (xs : List Nat) :
    (GetrfBatched st { env with infoValues := xs } stream buffers desc).1 =
      (GetrfBatched st env stream buffers desc).1 := by
  by_cases hlen : desc.length = 12
  · rcases hB : Borrow st env stream with ⟨res, st1, btr⟩
    unfold GetrfBatched GetrfBatched_
    simp only [UnpackGetrfBatchedDescriptor, if_pos hlen]
    rw [borrow_info_irrelevant, hB]
    cases res with
    | error e => simp
    | ok hdl =>
      by_cases hd : buffers 0 ≠ buffers 1 <;>
        by_cases hmf : env.memcpyFails = true <;>
          by_cases hbp : env.batchPtrsFails = true <;>
            by_cases hsy : env.syncFails = true <;>
              by_cases hv : env.vendorFails = true <;>
                by_cases hty : TypeDispatched desc <;>
                  simp_all [MakeBatchPointers, TypeDispatched]
  · unfold GetrfBatched GetrfBatched_
    simp [UnpackGetrfBatchedDescriptor, hlen]

/-- C4: a dispatcher writes a failure message into the status sink if and
only if descriptor unpacking, handle borrowing, a device memory operation,
or the vendor-routine invocation itself fails; and the sink write is
independent of the per-matrix status codes the vendor routine deposits in
the caller's `info` buffer — a singular matrix reported there never becomes
a call-level failure. -/
theorem sink_written_iff_call_failure (st : PoolState) (env : CudaEnv)
    (stream : Nat) (buffers : Nat → Nat) (descT descG : List Nat)
    (xs : List Nat) :
    ((TrsmBatched st env stream buffers descT).1 ≠ none ↔
      descT.length ≠ 32 ∨ BorrowFails st env stream ∨
        TrsmDevMemFails env buffers ∨
        (env.vendorFails = true ∧ TypeDispatched descT)) ∧
    ((GetrfBatched st env stream buffers descG).1 ≠ none ↔
      descG.length ≠ 12 ∨ BorrowFails st env stream ∨
        GetrfDevMemFails env buffers ∨
        (env.vendorFails = true ∧ TypeDispatched descG)) ∧
    (GetrfBatched st { env with infoValues := xs } stream buffers descG).1 =
      (GetrfBatched st env stream buffers descG).1 :=
  ⟨(trsm_sink_iff_error st env stream buffers descT).trans
      (trsm_error_iff st env stream buffers descT),
   (getrf_sink_iff_error st env stream buffers descG).trans
      (getrf_error_iff st env stream buffers descG),
   getrf_sink_info_irrelevant st env stream buffers descG xs⟩

/-- Witness for C4: a concrete successful factorize call in which the
vendor routine reports matrix 1 as singular (`info = [0, 3]`): the statuses
reach the trace's vendor-call event, yet nothing is written into the sink. -/
theorem sink_written_iff_call_failure_witness :
    (GetrfBatched poolEmpty envSingular 1 bufEx
        (PackGetrfBatchedDescriptor getrfDescEx)).1 = none ∧
    (GetrfBatched poolEmpty envSingular 1 bufEx
        (PackGetrfBatchedDescriptor getrfDescEx)).2.2.getLast? =
      some (Event.getrfBatchedCall (bufEx 4) (bufEx 1) (bufEx 2) (bufEx 3) [0, 3]) := by
  constructor
  · have h := (sink_written_iff_call_failure poolEmpty envSingular 1 bufEx
      (PackTrsmBatchedDescriptor trsmDescEx) (PackGetrfBatchedDescriptor getrfDescEx)
      []).2.1
    by_contra hne
    exact absurd (h.mp hne) (by decide)
  · rfl

/-! Scratch sizing -/

theorem trsm_h2d_sizes (st : PoolState) (env : CudaEnv) (stream : Nat)
    (buffers : Nat → Nat) (desc : List Nat) (d : TrsmBatchedDescriptor)
    (hU : UnpackTrsmBatchedDescriptor desc = Except.ok d)
    (hok : (TrsmBatched_ st env stream buffers desc).1 = Except.ok ()) :
    h2dSizes (TrsmBatched_ st env stream buffers desc).2.2 =
      [d.batch * ptrSize, d.batch * ptrSize] := by
  rcases hB : Borrow st env stream with ⟨res, st1, btr⟩
  unfold TrsmBatched_ at hok ⊢
  rw [hU, hB] at hok ⊢
  cases res with
  | error e => simp at hok
  | ok hdl =>
    by_cases hd : buffers 2 ≠ buffers 1 <;>
      by_cases hmf : env.memcpyFails = true <;>
        by_cases hbp : env.batchPtrsFails = true <;>
          by_cases hsy : env.syncFails = true <;>
            by_cases hty : d.type = F32 ∨ d.type = F64 ∨ d.type = C64 ∨ d.type = C128 <;>
              by_cases hv : env.vendorFails = true <;>
                simp_all [MakeBatchPointers, h2dSizes]

theorem getrf_h2d_sizes (st : PoolState) (env : CudaEnv) (stream : Nat)
    (buffers : Nat → Nat) (desc : List Nat) (d : GetrfBatchedDescriptor)
    (hU : UnpackGetrfBatchedDescriptor desc = Except.ok d)
    (hok : (GetrfBatched_ st env stream buffers desc).1 = Except.ok ()) :
    h2dSizes (GetrfBatched_ st env stream buffers desc).2.2 = [d.batch * ptrSize] := by
  rcases hB : Borrow st env stream with ⟨res, st1, btr⟩
  unfold GetrfBatched_ at hok ⊢
  rw [hU, hB] at hok ⊢
  cases res with
  | error e => simp at hok
  | ok hdl =>
    by_cases hd : buffers 0 ≠ buffers 1 <;>
      by_cases hmf : env.memcpyFails = true <;>
        by_cases hbp : env.batchPtrsFails = true <;>
          by_cases hsy : env.syncFails = true <;>
            by_cases hty : d.type = F32 ∨ d.type = F64 ∨ d.type = C64 ∨ d.type = C128 <;>
              by_cases hv : env.vendorFails = true <;>
                simp_all [MakeBatchPointers, h2dSizes]

/-- C8: both descriptor builders return `batch * sizeof(void*)` as the
required scratch size (first component), and this size is exactly the byte
size of each batch-pointer array a successful dispatcher run writes into a
scratch buffer — two arrays for `TrsmBatched_`, one for `GetrfBatched_` —
so the advertised allocation suffices for each of them. -/
theorem builder_scratch_size_sufficient (kind : Char)
    (itemsize batch m n : Nat) (ls lo ta ca ud : Bool)
    (kindg : Char) (itemsizeg bg ng : Nat)
    (sizeT sizeG : Nat) (bsT bsG : List Nat)
    (hbatch : batch < 2 ^ 32) (hbg : bg < 2 ^ 32)
    (hT : BuildTrsmBatchedDescriptor kind itemsize batch m n ls lo ta ca ud =
            Except.ok (sizeT, bsT))
    (hG : BuildGetrfBatchedDescriptor kindg itemsizeg bg ng = Except.ok (sizeG, bsG)) :
    sizeT = batch * ptrSize ∧ sizeG = bg * ptrSize ∧
    ∀ (st : PoolState) (env : CudaEnv) (stream : Nat) (buffers : Nat → Nat),
      ((TrsmBatched_ st env stream buffers bsT).1 = Except.ok () →
        h2dSizes (TrsmBatched_ st env stream buffers bsT).2.2 = [sizeT, sizeT]) ∧
      ((GetrfBatched_ st env stream buffers bsG).1 = Except.ok () →
        h2dSizes (GetrfBatched_ st env stream buffers bsG).2.2 = [sizeG]) := by
  unfold BuildTrsmBatchedDescriptor at hT
  unfold BuildGetrfBatchedDescriptor at hG
  rcases hDT : DtypeToType kind itemsize with e | ty
  · rw [hDT] at hT; exact absurd hT (by simp)
  rcases hDG : DtypeToType kindg itemsizeg with e | tyg
  · rw [hDG] at hG; exact absurd hG (by simp)
  rw [hDT] at hT
  rw [hDG] at hG
  simp only [Except.ok.injEq, Prod.mk.injEq] at hT hG
  obtain ⟨hsizeT, hbsT⟩ := hT
  obtain ⟨hsizeG, hbsG⟩ := hG
  refine ⟨hsizeT.symm, hsizeG.symm, fun st env stream buffers => ⟨fun hok => ?_, fun hok => ?_⟩⟩
  · have hU := unpack_pack_trsm_general
      { type := ty, batch := batch, m := m, n := n,
        side := if ls then CUBLAS_SIDE_LEFT else CUBLAS_SIDE_RIGHT,
        uplo := if lo then CUBLAS_FILL_MODE_LOWER else CUBLAS_FILL_MODE_UPPER,
        trans := if ta then (if ca then CUBLAS_OP_C else CUBLAS_OP_T) else CUBLAS_OP_N,
        diag := if ud then CUBLAS_DIAG_UNIT else CUBLAS_DIAG_NON_UNIT }
    rw [hbsT] at hU
    have := trsm_h2d_sizes st env stream buffers bsT _ hU hok
    rw [this]
    simp only [decodeWord_eq batch hbatch, ← hsizeT]
  · have hU := unpack_pack_getrf_general { type := tyg, batch := bg, n := ng }
    rw [hbsG] at hU
    have := getrf_h2d_sizes st env stream buffers bsG _ hU hok
    rw [this]
    simp only [decodeWord_eq bg hbg, ← hsizeG]

/-- Witness for C8: the concrete builders advertise 2·8 = 16 scratch bytes
and the successful concrete runs write batch-pointer arrays of exactly that
size. -/
theorem builder_scratch_size_sufficient_witness :
    BuildTrsmBatchedDescriptor 'f' 4 2 3 3 true true false false false =
      Except.ok (16, PackTrsmBatchedDescriptor trsmDescEx) ∧
    BuildGetrfBatchedDescriptor 'f' 8 2 3 =
      Except.ok (16, PackGetrfBatchedDescriptor getrfDescEx) ∧
    h2dSizes (TrsmBatched_ poolEmpty envOk 1 bufEx
      (PackTrsmBatchedDescriptor trsmDescEx)).2.2 = [16, 16] ∧
    h2dSizes (GetrfBatched_ poolEmpty envOk 1 bufEx
      (PackGetrfBatchedDescriptor getrfDescEx)).2.2 = [16] := by
  have h := builder_scratch_size_sufficient 'f' 4 2 3 3 true true false false false
      'f' 8 2 3 16 16 (PackTrsmBatchedDescriptor trsmDescEx)
      (PackGetrfBatchedDescriptor getrfDescEx) (by decide) (by decide) rfl rfl
  exact ⟨rfl, rfl, (h.2.2 poolEmpty envOk 1 bufEx).1 rfl, (h.2.2 poolEmpty envOk 1 bufEx).2 rfl⟩

/-! Frame: the input buffer is only read -/

set_option maxHeartbeats 1600000 in
/-- C10: every write a dispatcher issues — staging copy, batch-pointer
arrays, vendor-routine outputs — targets the working, scratch, or output
buffers, never the input-buffer role; hence when the input buffer's address
differs from those buffers' addresses, the caller's input buffer is
unchanged by the call. -/
theorem dispatcher_frame_input_read_only (st : PoolState) (env : CudaEnv)
    (stream : Nat) (buffers : Nat → Nat) (descT descG : List Nat)
    (dt : TrsmBatchedDescriptor) (dg : GetrfBatchedDescriptor)
    (hUT : UnpackTrsmBatchedDescriptor descT = Except.ok dt)
    (hUG : UnpackGetrfBatchedDescriptor descG = Except.ok dg) :
    (∀ e ∈ (TrsmBatched_ st env stream buffers descT).2.2,
      ∀ a ∈ e.writeAddrs, a = buffers 2 ∨ a = buffers 3 ∨ a = buffers 4) ∧
    (buffers 1 ≠ buffers 2 → buffers 1 ≠ buffers 3 → buffers 1 ≠ buffers 4 →
      ∀ e ∈ (TrsmBatched_ st env stream buffers descT).2.2,
        buffers 1 ∉ e.writeAddrs) ∧
    (∀ e ∈ (GetrfBatched_ st env stream buffers descG).2.2,
      ∀ a ∈ e.writeAddrs,
        a = buffers 1 ∨ a = buffers 2 ∨ a = buffers 3 ∨ a = buffers 4) ∧
    (buffers 0 ≠ buffers 1 → buffers 0 ≠ buffers 2 → buffers 0 ≠ buffers 3 →
      buffers 0 ≠ buffers 4 →
      ∀ e ∈ (GetrfBatched_ st env stream buffers descG).2.2,
        buffers 0 ∉ e.writeAddrs) := by
  have hT : ∀ e ∈ (TrsmBatched_ st env stream buffers descT).2.2,
      ∀ a ∈ e.writeAddrs, a = buffers 2 ∨ a = buffers 3 ∨ a = buffers 4 := by
    rcases hB : Borrow st env stream with ⟨res, st1, btr⟩
    unfold TrsmBatched_
    rw [hUT, hB]
    cases res with
    | error e => simp
    | ok hdl =>
      by_cases hd : buffers 2 ≠ buffers 1 <;>
        by_cases hmf : env.memcpyFails = true <;>
          by_cases hbp : env.batchPtrsFails = true <;>
            by_cases hsy : env.syncFails = true <;>
              by_cases hty : dt.type = F32 ∨ dt.type = F64 ∨ dt.type = C64 ∨ dt.type = C128 <;>
                by_cases hv : env.vendorFails = true <;>
                  simp_all [MakeBatchPointers, Event.writeAddrs]
  have hG : ∀ e ∈ (GetrfBatched_ st env stream buffers descG).2.2,
      ∀ a ∈ e.writeAddrs,
        a = buffers 1 ∨ a = buffers 2 ∨ a = buffers 3 ∨ a = buffers 4 := by
    rcases hB : Borrow st env stream with ⟨res, st1, btr⟩
    unfold GetrfBatched_
    rw [hUG, hB]
    cases res with
    | error e => simp
    | ok hdl =>
      by_cases hd : buffers 0 ≠ buffers 1 <;>
        by_cases hmf : env.memcpyFails = true <;>
          by_cases hbp : env.batchPtrsFails = true <;>
            by_cases hsy : env.syncFails = true <;>
              by_cases hty : dg.type = F32 ∨ dg.type = F64 ∨ dg.type = C64 ∨ dg.type = C128 <;>
                by_cases hv : env.vendorFails = true <;>
                  simp_all [MakeBatchPointers, Event.writeAddrs]
  refine ⟨hT, fun h12 h13 h14 e he hmem => ?_, hG, fun h01 h02 h03 h04 e he hmem => ?_⟩
  · rcases hT e he (buffers 1) hmem with h | h | h
    · exact h12 h
    · exact h13 h
    · exact h14 h
  · rcases hG e he (buffers 0) hmem with h | h | h | h
    · exact h01 h
    · exact h02 h
    · exact h03 h
    · exact h04 h

/-- Witness for C10 at the concrete distinct buffer addresses: no event of
either concrete run writes the respective input buffer's address. -/
theorem dispatcher_frame_input_read_only_witness :
    (∀ e ∈ (TrsmBatched_ poolEmpty envOk 1 bufEx
        (PackTrsmBatchedDescriptor trsmDescEx)).2.2, bufEx 1 ∉ e.writeAddrs) ∧
    (∀ e ∈ (GetrfBatched_ poolEmpty envOk 1 bufEx
        (PackGetrfBatchedDescriptor getrfDescEx)).2.2, bufEx 0 ∉ e.writeAddrs) :=
  ⟨(dispatcher_frame_input_read_only poolEmpty envOk 1 bufEx
      (PackTrsmBatchedDescriptor trsmDescEx) (PackGetrfBatchedDescriptor getrfDescEx)
      trsmDescEx getrfDescEx rfl rfl).2.1 (by decide) (by decide) (by decide),
   (dispatcher_frame_input_read_only poolEmpty envOk 1 bufEx
      (PackTrsmBatchedDescriptor trsmDescEx) (PackGetrfBatchedDescriptor getrfDescEx)
      trsmDescEx getrfDescEx rfl rfl).2.2.2 (by decide) (by decide) (by decide) (by decide)⟩
